import Mathlib

/-!
# Verification of the alert-monitoring engine of `main.py`

Shallow embedding of the alert engine of the Telegram alert bot
(`src/main.py`): the weather threshold evaluator, the signature/cooldown
gate, the feed change detectors (rail lines and AEMET warnings), and the
air-quality content-hash gate.

Modelling conventions:
* Python floats (forecast values, `time.time()` timestamps) are embedded
  as rationals `ℚ`.
* A fallible notifier (`bot.send_message`) is modelled by a Boolean
  `sendOk` parameter: `true` means the call succeeds, `false` means it
  raises. Each tick function returns the new memory state together with
  the list of texts that were successfully delivered to the notifier
  destination, reproducing the source's control flow (in particular,
  which memory writes happen before or after the send, and which
  exceptions are caught where).
* Python's process-seeded `hash : str -> int` is an explicit function
  parameter `h : String → ℤ` (its value is fixed per process run but not
  across runs, so it is an input of the model, not a constant).
* Network fetching and XML/JSON parsing (the `Fetcher` boundary of the
  spec) are outside the model: fetched forecast snapshots, feed item
  lists and decoded air-quality payloads are inputs of the tick
  functions.
-/

/-! ## Forecast snapshot and threshold evaluation (`_max_first_n`, `compute_weather_alert`) -/

/-- One decoded Open-Meteo response, as read by `compute_weather_alert`:
the current wind gust and the three hourly series.  An entry is `none`
when the JSON value is absent, `null`, or not coercible to `float`
(the source skips those via `try/except`). -/
structure ForecastSnapshot where
  current_wind_gusts_10m : Option ℚ
  hourly_precipitation : List (Option ℚ)
  hourly_precipitation_probability : List (Option ℚ)
  hourly_wind_gusts_10m : List (Option ℚ)

/-- `_max_first_n(values, n)` of `main.py`: running maximum over the
first `n` entries, starting from `0.0`, skipping absent entries. -/
def max_first_n (values : List (Option ℚ)) (n : Nat) : ℚ :=
  (values.take n).foldl (fun mx x => match x with | none => mx | some q => max mx q) 0

/-- Python `f"{q:.0f}"`: render with no decimals.  Tie-breaking of
`x.5` values differs between Python's binary-float formatting and
`round`; no verified property depends on the rendered digits. -/
def fmtF0 (q : ℚ) : String := toString (round q)

/-- Python `f"{q:.1f}"`: render with one decimal (same caveat as `fmtF0`). -/
def fmtF1 (q : ℚ) : String :=
  let n : ℤ := round (q * 10)
  (if n < 0 then "-" else "") ++ toString (n.natAbs / 10) ++ "." ++ toString (n.natAbs % 10)

/-- Reason text for a strong current gust. -/
def gust_now_reason (v : ℚ) : String := "💨 Rachas fuertes ahora (" ++ fmtF0 v ++ " km/h)"

/-- Reason text for strong gusts in the evaluation window. -/
def gust_max_reason (v : ℚ) : String := "💨 Rachas fuertes próximas horas (máx " ++ fmtF0 v ++ " km/h)"

/-- Reason text for a high precipitation probability. -/
def rain_prob_reason (v : ℚ) : String := "🌧️ Prob. lluvia alta (máx " ++ fmtF0 v ++ "%)"

/-- Reason text for heavy precipitation. -/
def rain_mm_reason (v : ℚ) : String := "🌧️ Lluvia intensa posible (hasta " ++ fmtF1 v ++ " mm/h)"

/-- The `reasons` list built by `compute_weather_alert` in `main.py`:
all four checks are appended independently, in source order
(current gust, windowed gust maximum, precipitation probability
maximum, precipitation maximum), each against its own threshold. -/
def weatherReasons (data : ForecastSnapshot) (gust_kmh rain_prob_pct rain_mm_h : ℚ) :
    List String :=
  (match data.current_wind_gusts_10m with
   | some v => if gust_kmh ≤ v then [gust_now_reason v] else []
   | none => []) ++
  (if gust_kmh ≤ max_first_n data.hourly_wind_gusts_10m 6 then
     [gust_max_reason (max_first_n data.hourly_wind_gusts_10m 6)] else []) ++
  (if rain_prob_pct ≤ max_first_n data.hourly_precipitation_probability 6 then
     [rain_prob_reason (max_first_n data.hourly_precipitation_probability 6)] else []) ++
  (if rain_mm_h ≤ max_first_n data.hourly_precipitation 6 then
     [rain_mm_reason (max_first_n data.hourly_precipitation 6)] else [])

/-- `compute_weather_alert` of `main.py`: returns `none` when no reason
applies, otherwise the pair `(signature, message)` with
`signature = "|".join(reasons) + "|" + label`. -/
def compute_weather_alert (city : String) (data : ForecastSnapshot)
    (gust_kmh rain_prob_pct rain_mm_h : ℚ) (label : String) :
    Option (String × String) :=
  if weatherReasons data gust_kmh rain_prob_pct rain_mm_h = [] then none
  else
    some (String.intercalate "|" (weatherReasons data gust_kmh rain_prob_pct rain_mm_h)
        ++ "|" ++ label,
      "⚠️ Alerta meteorológica (" ++ label ++ ")\n"
        ++ String.intercalate "\n"
            ((weatherReasons data gust_kmh rain_prob_pct rain_mm_h).map (fun r => "• " ++ r))
        ++ "\n\n📍 " ++ city ++ "\nℹ️ Fuente: Open-Meteo")

/-! ## Signature & cooldown gate (`maybe_send_weather_alert`) -/

/-- One signature/cooldown memory slot: `{weather_last_sig, weather_last_ts}`
(and, with the same shape, `{air_last_sig, air_last_ts}`) of the `_state`
dictionary.  `last_ts` is a `time.time()` value in seconds, initially `0.0`. -/
structure AlertMemory where
  last_sig : Option String
  last_ts : ℚ
deriving DecidableEq

/-- `maybe_send_weather_alert` of `main.py`, as a function of the fetched
snapshot.  The strict label `"estricto"` and the gate are as in the source:
suppress when the signature is unchanged and the cooldown
(`cooldown_min * 60` seconds) has not elapsed; otherwise send, and update
the memory only after a successful send (a raising send leaves the state
unchanged — the exception propagates to the caller's handler). -/
def maybe_send_weather_alert (st : AlertMemory) (city : String)
    (data : ForecastSnapshot) (gust_kmh rain_prob_pct rain_mm_h : ℚ)
    (cooldown_min : ℚ) (now : ℚ) (sendOk : Bool) : AlertMemory × List String :=
  match compute_weather_alert city data gust_kmh rain_prob_pct rain_mm_h "estricto" with
  | none => (st, [])
  | some (sig, msg) =>
    let cooldown_ok := cooldown_min * 60 ≤ now - st.last_ts
    if st.last_sig = some sig ∧ ¬cooldown_ok then (st, [])
    else if sendOk then (⟨some sig, now⟩, [msg])
    else (st, [])

/-- `cmd_alertas_tiempo` of `main.py` (the `/alertas_tiempo` command):
it simply awaits `maybe_send_weather_alert`, i.e. the exact automatic
strict path over the exact same memory slot. -/
def cmd_alertas_tiempo (st : AlertMemory) (city : String)
    (data : ForecastSnapshot) (gust_kmh rain_prob_pct rain_mm_h : ℚ)
    (cooldown_min : ℚ) (now : ℚ) (sendOk : Bool) : AlertMemory × List String :=
  maybe_send_weather_alert st city data gust_kmh rain_prob_pct rain_mm_h cooldown_min now sendOk

/-- `cmd_alertas_sensible` of `main.py` (the `/alertas_sensible` command):
evaluates with the hard-coded sensitive thresholds `45.0 / 60.0 / 2.0`
and label `"sensible"`, and — exactly as in the source — sends the alert
unconditionally, consulting no signature/cooldown memory and writing
none.  Returns the delivered notifications. -/
def cmd_alertas_sensible (city : String) (data : ForecastSnapshot)
    (sendOk : Bool) : List String :=
  match compute_weather_alert city data 45 60 2 "sensible" with
  | none => []
  | some (_, msg) => if sendOk then [msg] else []

/-! ## Feed change detection (`parse_rss_items` items, `looks_serious_train`,
the R1/RG1 blocks of `check_trains_and_air`, and `check_aemet`) -/

/-- One parsed RSS/Atom item as produced by `parse_rss_items`:
`{"id": guid, "title": title, "link": link, "when": pub}`. -/
structure FeedItem where
  id : String
  title : String
  link : String
  pubWhen : String
deriving DecidableEq

/-- The fixed incident keyword list of `looks_serious_train`. -/
def train_keywords : List String :=
  ["incid", "avaria", "avería", "suprimit", "suprimido", "cancel",
   "interromp", "interrump", "susp", "retard", "retras", "demora",
   "servei", "servicio", "limit", "tall", "corte", "sense servei", "sin servicio"]

/-- Python `str.lower()` (modelled character-wise; `Char.toLower` agrees
with Python on the ASCII letters, which cover every keyword). -/
def pyLower (s : String) : String := ⟨s.data.map Char.toLower⟩

/-- Does the character list start with `k`?  (Python `str.startswith`
at the list level; helper for the substring test.) -/
def startsWithList : List Char → List Char → Bool
  | [], _ => true
  | _ :: _, [] => false
  | a :: ka, b :: tb => a = b && startsWithList ka tb

/-- Python's substring operator `k in t`, on character lists:
`k` occurs contiguously somewhere in `t`. -/
def subOcc (k : List Char) : List Char → Bool
  | [] => startsWithList k []
  | b :: tb => startsWithList k (b :: tb) || subOcc k tb

/-- `looks_serious_train(title)` of `main.py`: lowercase the title and
test whether any keyword occurs as a substring. -/
def looks_serious_train (title : String) : Bool :=
  train_keywords.any fun k => subOcc k.data (pyLower title).data

/-- Python `str.strip()`: drop leading and trailing whitespace. -/
def pyStrip (s : String) : String :=
  ⟨((s.data.dropWhile Char.isWhitespace).reverse.dropWhile Char.isWhitespace).reverse⟩

/-- The rail incident notification text
(`f"🚆 {line} — Incidencia\n• {title}\n{when}\n{link}".strip()`). -/
def rail_message (line : String) (it : FeedItem) : String :=
  pyStrip ("🚆 " ++ line ++ " — Incidencia\n• " ++ it.title ++ "\n" ++ it.pubWhen ++ "\n" ++ it.link)

/-- One rail-line block of `check_trains_and_air` (the source repeats the
same code for R1 and RG1 with separate `_state` keys and line names).
`last_id` is the stored `train_*_last_id`; `items` the `limit=1` fetch
result.  A new item id always advances the stored id (the write precedes
the classifier test and the send); the notifier is invoked only for
titles classified serious, and a raising send is caught by the block's
`except` after the id was already advanced. -/
def rail_check (line : String) (last_id : Option String) (items : List FeedItem)
    (sendOk : Bool) : Option String × List String :=
  match items with
  | [] => (last_id, [])
  | it :: _ =>
    if some it.id = last_id then (last_id, [])
    else (some it.id,
      if looks_serious_train it.title && sendOk then [rail_message line it] else [])

/-- The AEMET warning notification text. -/
def aemet_message (it : FeedItem) : String :=
  pyStrip ("⚠️ AEMET — Aviso (Catalunya)\n• " ++ it.title ++ "\n" ++ it.pubWhen ++ "\n" ++ it.link)

/-- `check_aemet` of `main.py`, as a function of the fetched `limit=1`
item list and the stored `aemet_last_id`.  No classifier: every new item
id is notified.  The id is stored before the send, and a raising send is
caught by the surrounding `except` — after the id was already advanced. -/
def check_aemet (last_id : Option String) (items : List FeedItem)
    (sendOk : Bool) : Option String × List String :=
  match items with
  | [] => (last_id, [])
  | it :: _ =>
    if some it.id = last_id then (last_id, [])
    else (some it.id, if sendOk then [aemet_message it] else [])

/-! ## Decoded JSON payloads (`r.json()` results) and the air-quality
signature (`air_signature`, `summarize_air_quality`, the air block of
`check_trains_and_air`) -/

/-- A decoded JSON value, the result of `r.json()` for the air-quality
URL.  Python numbers (int/float) are merged into `ℚ`; object fields keep
their insertion order like a Python `dict`. -/
inductive JSON where
  | null : JSON
  | bool (b : Bool) : JSON
  | num (q : ℚ) : JSON
  | str (s : String) : JSON
  | arr (items : List JSON) : JSON
  | obj (fields : List (String × JSON)) : JSON

/-- Hexadecimal digit for `\uXXXX` escapes. -/
def hexDigit (n : Nat) : Char :=
  if n < 10 then Char.ofNat (48 + n) else Char.ofNat (87 + n)

/-- Four-digit lowercase hex rendering (for control-character escapes). -/
def hex4 (n : Nat) : String :=
  ⟨[hexDigit (n / 4096 % 16), hexDigit (n / 256 % 16), hexDigit (n / 16 % 16), hexDigit (n % 16)]⟩

/-- `json.dumps` escaping of one character (`ensure_ascii=False`:
non-ASCII characters pass through unescaped). -/
def jsonEscapeChar (c : Char) : String :=
  if c = '"' then "\\\""
  else if c = '\\' then "\\\\"
  else if c = '\n' then "\\n"
  else if c = '\r' then "\\r"
  else if c = '\t' then "\\t"
  else if c.toNat = 8 then "\\b"
  else if c.toNat = 12 then "\\f"
  else if c.toNat < 32 then "\\u" ++ hex4 c.toNat
  else String.singleton c

/-- `json.dumps` escaping of a string body. -/
def jsonEscape (s : String) : String := String.join (s.data.map jsonEscapeChar)

/-- Rendering of a JSON number.  The `ℚ` model merges Python's int/float
distinction; integral values render like Python ints.  No verified
property depends on the rendered digits. -/
def numText (q : ℚ) : String := if q.den = 1 then toString q.num else toString q

/-- Key-order comparison used by `json.dumps(..., sort_keys=True)`:
fields are ordered by their key strings. -/
def keyLE (a b : String × JSON) : Prop := a.1 ≤ b.1

instance : DecidableRel keyLE := fun a b => inferInstanceAs (Decidable (a.1 ≤ b.1))

instance : IsTotal (String × JSON) keyLE := ⟨fun a b => le_total a.1 b.1⟩

instance : IsTrans (String × JSON) keyLE := ⟨fun _ _ _ hab hbc => le_trans hab hbc⟩

/-- Strict key order (used to show the sorted field list is unique when
keys are distinct). -/
def keyLT (a b : String × JSON) : Prop := a.1 < b.1

instance : IsAntisymm (String × JSON) keyLT :=
  ⟨fun _ _ h₁ h₂ => absurd h₂ (lt_asymm h₁)⟩

/-- Sort an object's fields by key (the `sort_keys=True` ordering). -/
def sortFields (l : List (String × JSON)) : List (String × JSON) :=
  List.insertionSort keyLE l

mutual
/-- Recursively sort every object's fields by key: the tree that
`json.dumps(..., sort_keys=True)` effectively serializes. -/
def canon : JSON → JSON
  | .null => .null
  | .bool b => .bool b
  | .num q => .num q
  | .str s => .str s
  | .arr items => .arr (canonList items)
  | .obj fields => .obj (sortFields (canonFields fields))
/-- `canon` mapped over an array's items. -/
def canonList : List JSON → List JSON
  | [] => []
  | j :: tl => canon j :: canonList tl
/-- `canon` mapped over an object's field values. -/
def canonFields : List (String × JSON) → List (String × JSON)
  | [] => []
  | (k, v) :: tl => (k, canon v) :: canonFields tl
end

mutual
/-- Plain `json.dumps` serialization (default separators `", "` / `": "`,
`ensure_ascii=False`) of an already canonically ordered tree. -/
def serialize : JSON → String
  | .null => "null"
  | .bool true => "true"
  | .bool false => "false"
  | .num q => numText q
  | .str s => "\"" ++ jsonEscape s ++ "\""
  | .arr items => "[" ++ serializeList items ++ "]"
  | .obj fields => "\x7b" ++ serializeFields fields ++ "\x7d"
/-- Array items joined by `", "`. -/
def serializeList : List JSON → String
  | [] => ""
  | [j] => serialize j
  | j :: j' :: tl => serialize j ++ ", " ++ serializeList (j' :: tl)
/-- Object entries `"key": value` joined by `", "`. -/
def serializeFields : List (String × JSON) → String
  | [] => ""
  | [(k, v)] => "\"" ++ jsonEscape k ++ "\": " ++ serialize v
  | (k, v) :: p :: tl =>
    "\"" ++ jsonEscape k ++ "\": " ++ serialize v ++ ", " ++ serializeFields (p :: tl)
end

/-- `json.dumps(data, ensure_ascii=False, sort_keys=True)`: serialize
with all object keys sorted. -/
def dumps_sorted (data : JSON) : String := serialize (canon data)

/-- `air_signature(data)` of `main.py`: `str(hash(json.dumps(data,
ensure_ascii=False, sort_keys=True)))`.  `h` is Python's process-seeded
string hash.  (The source's `except` fallback to `str(hash(str(data)))`
is unreachable in this model: every `JSON` value serializes.) -/
def air_signature (h : String → ℤ) (data : JSON) : String :=
  toString (h (dumps_sorted data))

/-- A single-quote string (Python repr quoting), built from its code
point. -/
def pyQuote : String := String.singleton (Char.ofNat 39)

mutual
/-- Python `repr()` of a decoded JSON value (approximate: repr-level
string escaping is not reproduced; no verified property depends on it). -/
def pyRepr : JSON → String
  | .null => "None"
  | .bool true => "True"
  | .bool false => "False"
  | .num q => numText q
  | .str s => pyQuote ++ s ++ pyQuote
  | .arr items => "[" ++ pyReprList items ++ "]"
  | .obj fields => "\x7b" ++ pyReprFields fields ++ "\x7d"
/-- List items joined by `", "` as in Python list repr. -/
def pyReprList : List JSON → String
  | [] => ""
  | [j] => pyRepr j
  | j :: j' :: tl => pyRepr j ++ ", " ++ pyReprList (j' :: tl)
/-- Dict entries `'key': value` joined by `", "` as in Python dict repr. -/
def pyReprFields : List (String × JSON) → String
  | [] => ""
  | [(k, v)] => pyQuote ++ k ++ pyQuote ++ ": " ++ pyRepr v
  | (k, v) :: p :: tl =>
    pyQuote ++ k ++ pyQuote ++ ": " ++ pyRepr v ++ ", " ++ pyReprFields (p :: tl)
end

/-- Python `str()` of a decoded JSON value (as interpolated by an
f-string): strings appear bare, everything else as its repr. -/
def pyStr : JSON → String
  | .str s => s
  | j => pyRepr j

/-- The candidate field names probed by `summarize_air_quality`. -/
def candidate_fields : List String :=
  ["aqi", "ica", "index", "quality", "qualitat", "value", "valor"]

/-- First candidate field present in a decoded object (`f in obj` /
`obj.get(f)`; `dict` keys are unique, so the first occurrence wins). -/
def firstCandidate (fields : List (String × JSON)) : List String → Option (String × JSON)
  | [] => none
  | f :: tl =>
    match fields.find? (fun p => p.1 == f) with
    | some p => some (f, p.2)
    | none => firstCandidate fields tl

/-- `summarize_air_quality(data)` of `main.py`: best-effort summary text. -/
def summarize_air_quality (data : JSON) : String :=
  match data with
  | .arr (first :: _) =>
    match first with
    | .obj fields =>
      match firstCandidate fields candidate_fields with
      | some (f, v) => "🌫️ Aire: " ++ f ++ "=" ++ pyStr v
      | none =>
        "🌫️ Aire: OK (lista) — claves: " ++ String.intercalate ", " ((fields.map Prod.fst).take 6)
    | _ => "🌫️ Aire: OK (lista)"
  | .obj fields =>
    match firstCandidate fields candidate_fields with
    | some (f, v) => "🌫️ Aire: " ++ f ++ "=" ++ pyStr v
    | none =>
      "🌫️ Aire: OK — claves: " ++ String.intercalate ", " ((fields.map Prod.fst).take 8)
  | _ => "🌫️ Aire: OK"

/-- The air-quality block of `check_trains_and_air` in `main.py`:
compute the content signature, and notify only when the signature
changed AND the cooldown elapsed (`sig != _state["air_last_sig"] and
cooldown_ok`).  Both memory fields are written BEFORE the send; a
raising send is caught by the block's `except` after the write. -/
def air_check (h : String → ℤ) (st : AlertMemory) (data : JSON)
    (cooldown_min now : ℚ) (sendOk : Bool) : AlertMemory × List String :=
  if some (air_signature h data) ≠ st.last_sig ∧ cooldown_min * 60 ≤ now - st.last_ts then
    (⟨some (air_signature h data), now⟩,
      if sendOk then [summarize_air_quality data ++ "\nℹ️ Fuente: AIR_QUALITY_URL"] else [])
  else (st, [])

/-- Well-formedness of a decoded payload: object keys are unique at
every level (guaranteed for values produced by Python's `json.loads`,
whose objects are `dict`s). -/
inductive WF : JSON → Prop where
  | null : WF .null
  | bool (b : Bool) : WF (.bool b)
  | num (q : ℚ) : WF (.num q)
  | str (s : String) : WF (.str s)
  | arr (items : List JSON) : (∀ j ∈ items, WF j) → WF (.arr items)
  | obj (fields : List (String × JSON)) :
      (fields.map Prod.fst).Nodup → (∀ p ∈ fields, WF p.2) → WF (.obj fields)

mutual
/-- Structural equality of decoded JSON values up to object key order:
two values are equivalent when they agree everywhere except that any
object's field list may appear in a different order (recursively). -/
inductive JEquiv : JSON → JSON → Prop where
  | null : JEquiv .null .null
  | bool (b : Bool) : JEquiv (.bool b) (.bool b)
  | num (q : ℚ) : JEquiv (.num q) (.num q)
  | str (s : String) : JEquiv (.str s) (.str s)
  | arr (l₁ l₂ : List JSON) : JEquivList l₁ l₂ → JEquiv (.arr l₁) (.arr l₂)
  | obj (l₁ l₂' l₂ : List (String × JSON)) :
      l₁.Perm l₂' → JEquivFields l₂' l₂ → JEquiv (.obj l₁) (.obj l₂)
/-- Pointwise `JEquiv` on array items. -/
inductive JEquivList : List JSON → List JSON → Prop where
  | nil : JEquivList [] []
  | cons (j₁ j₂ : JSON) (tl₁ tl₂ : List JSON) :
      JEquiv j₁ j₂ → JEquivList tl₁ tl₂ → JEquivList (j₁ :: tl₁) (j₂ :: tl₂)
/-- Pointwise key-preserving `JEquiv` on object fields. -/
inductive JEquivFields : List (String × JSON) → List (String × JSON) → Prop where
  | nil : JEquivFields [] []
  | cons (k : String) (v₁ v₂ : JSON) (tl₁ tl₂ : List (String × JSON)) :
      JEquiv v₁ v₂ → JEquivFields tl₁ tl₂ →
      JEquivFields ((k, v₁) :: tl₁) ((k, v₂) :: tl₂)
end

/-! ## Concrete test vectors (used by witnesses and counterexamples) -/

/-- A stand-in for Python's process-seeded string hash (any fixed
function is a legitimate instantiation; the gate logic never inspects
the hash value). -/
def hZero : String → ℤ := fun _ => 0

/-- Snapshot with a current gust of 65 km/h and empty hourly series. -/
def exSnapshot65 : ForecastSnapshot := ⟨some 65, [], [], []⟩

/-- Snapshot with a current gust of 50 km/h (fires the sensitive
45 km/h threshold but not the strict 60 km/h one). -/
def exSnapshot50 : ForecastSnapshot := ⟨some 50, [], [], []⟩

/-- Snapshot with no current gust, empty series except one negative
hourly gust entry. -/
def exSnapshotNeg : ForecastSnapshot := ⟨none, [], [], [none, some (-2)]⟩

/-- The air-quality payload `{"aqi": 42}` of the spec's scenario 3. -/
def exPayload42 : JSON := .obj [("aqi", .num 42)]

/-- `{"aqi": 42, "src": "x"}` in insertion order. -/
def exJ1 : JSON := .obj [("aqi", .num 42), ("src", .str "x")]

/-- The same object with the two keys in the opposite order. -/
def exJ2 : JSON := .obj [("src", .str "x"), ("aqi", .num 42)]

/-- A fresh AEMET feed item. -/
def exAemetItem : FeedItem := ⟨"g1", "Aviso nivel taronja", "http://x", "Mon"⟩

/-- A new rail item with a non-incident title. -/
def exRailNew : FeedItem := ⟨"g2", "Tot normal", "http://y", "Tue"⟩

/-- A new rail item with an incident title. -/
def exRailSerious : FeedItem := ⟨"g3", "Servei interromput", "http://z", "Wed"⟩

/-! ## Helper lemmas: windowed maxima -/

theorem le_foldl_max : ∀ (l : List (Option ℚ)) (a : ℚ),
    a ≤ l.foldl (fun mx x => match x with | none => mx | some q => max mx q) a
  | [], _ => le_refl _
  | none :: tl, a => le_foldl_max tl a
  | some q :: tl, a => le_trans (le_max_left a q) (le_foldl_max tl (max a q))

theorem max_first_n_nonneg (l : List (Option ℚ)) (n : Nat) : 0 ≤ max_first_n l n :=
  le_foldl_max _ 0

theorem foldl_max_of_all_none : ∀ (l : List (Option ℚ)), (∀ x ∈ l, x = none) → ∀ (a : ℚ),
    l.foldl (fun mx x => match x with | none => mx | some q => max mx q) a = a
  | [], _, _ => rfl
  | x :: tl, h, a => by
    have hx : x = none := h x (List.mem_cons_self x tl)
    subst hx
    exact foldl_max_of_all_none tl (fun y hy => h y (List.mem_cons_of_mem _ hy)) a

theorem max_first_n_of_all_none (l : List (Option ℚ)) (n : Nat)
    (h : ∀ x ∈ l.take n, x = none) : max_first_n l n = 0 :=
  foldl_max_of_all_none _ h 0

theorem max_first_n_cons_none (l : List (Option ℚ)) (n : Nat) :
    max_first_n (none :: l) (n + 1) = max_first_n l n := rfl

/-! ## Helper lemmas: reasons list of the evaluator -/

theorem singleton_ite_eq_nil_iff {α : Type} (c : Prop) [Decidable c] (x : α) :
    (if c then [x] else []) = [] ↔ ¬c := by
  split_ifs with h <;> simp [h]

theorem weatherReasons_eq_nil_iff (data : ForecastSnapshot) (g p r : ℚ) :
    weatherReasons data g p r = [] ↔
      ((∀ v, data.current_wind_gusts_10m = some v → v < g) ∧
       max_first_n data.hourly_wind_gusts_10m 6 < g ∧
       max_first_n data.hourly_precipitation_probability 6 < p ∧
       max_first_n data.hourly_precipitation 6 < r) := by
  unfold weatherReasons
  cases hc : data.current_wind_gusts_10m with
  | none =>
    simp only [List.append_eq_nil, singleton_ite_eq_nil_iff, not_le]
    simp [and_assoc]
  | some v =>
    simp only [List.append_eq_nil, singleton_ite_eq_nil_iff, not_le]
    simp [and_assoc]

theorem weatherReasons_length_le (data : ForecastSnapshot) (g p r : ℚ) :
    (weatherReasons data g p r).length ≤ 4 := by
  unfold weatherReasons
  cases data.current_wind_gusts_10m with
  | none => split_ifs <;> simp
  | some v => dsimp only; split_ifs <;> simp

theorem gust_now_reason_mem (data : ForecastSnapshot) (g p r : ℚ) (v : ℚ)
    (hc : data.current_wind_gusts_10m = some v) (h : g ≤ v) :
    gust_now_reason v ∈ weatherReasons data g p r := by
  unfold weatherReasons
  rw [hc]
  simp [h]

theorem gust_max_reason_mem (data : ForecastSnapshot) (g p r : ℚ)
    (h : g ≤ max_first_n data.hourly_wind_gusts_10m 6) :
    gust_max_reason (max_first_n data.hourly_wind_gusts_10m 6) ∈ weatherReasons data g p r := by
  unfold weatherReasons
  rw [if_pos h]
  simp

theorem rain_prob_reason_mem (data : ForecastSnapshot) (g p r : ℚ)
    (h : p ≤ max_first_n data.hourly_precipitation_probability 6) :
    rain_prob_reason (max_first_n data.hourly_precipitation_probability 6) ∈
      weatherReasons data g p r := by
  unfold weatherReasons
  rw [if_pos h]
  simp

theorem rain_mm_reason_mem (data : ForecastSnapshot) (g p r : ℚ)
    (h : r ≤ max_first_n data.hourly_precipitation 6) :
    rain_mm_reason (max_first_n data.hourly_precipitation 6) ∈ weatherReasons data g p r := by
  unfold weatherReasons
  rw [if_pos h]
  simp

theorem compute_eq_none_iff (city : String) (data : ForecastSnapshot)
    (g p r : ℚ) (label : String) :
    compute_weather_alert city data g p r label = none ↔ weatherReasons data g p r = [] := by
  unfold compute_weather_alert
  split_ifs with h <;> simp [h]

theorem compute_eq_some (city : String) (data : ForecastSnapshot)
    (g p r : ℚ) (label sig msg : String)
    (h : compute_weather_alert city data g p r label = some (sig, msg)) :
    sig = String.intercalate "|" (weatherReasons data g p r) ++ "|" ++ label := by
  unfold compute_weather_alert at h
  split_ifs at h with he
  simp only [Option.some.injEq, Prod.mk.injEq] at h
  exact h.1.symm

/-! ## Helper lemmas: strings and substrings -/

theorem append_ne_of_suffix_ne (s₁ s₂ t₁ t₂ : String)
    (hlen : t₁.data.length = t₂.data.length) (hne : t₁ ≠ t₂) :
    s₁ ++ t₁ ≠ s₂ ++ t₂ := by
  intro h
  apply hne
  have hd : (s₁ ++ t₁).data = (s₂ ++ t₂).data := congrArg String.data h
  rw [String.data_append, String.data_append] at hd
  have h2 := (List.append_inj' hd hlen).2
  exact String.ext h2

theorem startsWithList_of_append : ∀ (k u : List Char), startsWithList k (k ++ u) = true
  | [], _ => rfl
  | a :: ka, u => by simp [startsWithList, startsWithList_of_append ka u]

theorem subOcc_of_startsWith (k t : List Char) (h : startsWithList k t = true) :
    subOcc k t = true := by
  cases t with
  | nil => simpa [subOcc] using h
  | cons b tb => simp [subOcc, h]

theorem subOcc_append : ∀ (u k v : List Char), subOcc k (u ++ (k ++ v)) = true
  | [], k, v => subOcc_of_startsWith _ _ (startsWithList_of_append k v)
  | b :: tb, k, v => by simp [subOcc, subOcc_append tb k v]

/-! ## Helper lemmas: key-sorted object fields -/

theorem sorted_keyLT_of_sorted_keyLE (l : List (String × JSON))
    (hs : l.Sorted keyLE) (hn : (l.map Prod.fst).Nodup) : l.Sorted keyLT := by
  have hne : l.Pairwise (fun a b => a.1 ≠ b.1) := by
    rw [List.Nodup, List.pairwise_map] at hn
    exact hn
  exact (hs.and hne).imp (fun h => lt_of_le_of_ne h.1 h.2)

theorem sortFields_congr (l₁ l₂ : List (String × JSON)) (hp : l₁.Perm l₂)
    (hn : (l₁.map Prod.fst).Nodup) : sortFields l₁ = sortFields l₂ := by
  have hp₁ : List.Perm (sortFields l₁) l₁ := List.perm_insertionSort keyLE l₁
  have hp₂ : List.Perm (sortFields l₂) l₂ := List.perm_insertionSort keyLE l₂
  have hperm : List.Perm (sortFields l₁) (sortFields l₂) :=
    hp₁.trans (hp.trans hp₂.symm)
  have hn₁ : ((sortFields l₁).map Prod.fst).Nodup :=
    ((hp₁.map Prod.fst).nodup_iff).mpr hn
  have hn₂ : ((sortFields l₂).map Prod.fst).Nodup :=
    ((hperm.map Prod.fst).nodup_iff).mp hn₁
  exact List.eq_of_perm_of_sorted hperm
    (sorted_keyLT_of_sorted_keyLE _ (List.sorted_insertionSort keyLE l₁) hn₁)
    (sorted_keyLT_of_sorted_keyLE _ (List.sorted_insertionSort keyLE l₂) hn₂)

theorem canonFields_eq_map : ∀ l : List (String × JSON),
    canonFields l = l.map (fun p => (p.1, canon p.2)) := by
  intro l
  induction l with
  | nil => simp [canonFields]
  | cons p tl ih =>
    obtain ⟨k, v⟩ := p
    simp [canonFields, ih]

theorem canon_congr : ∀ (n : Nat) (j₁ j₂ : JSON),
    sizeOf j₁ ≤ n → WF j₁ → JEquiv j₁ j₂ → canon j₁ = canon j₂ := by
  intro n
  induction n with
  | zero =>
    intro j₁ j₂ hs _ _
    exfalso
    cases j₁ <;> simp_arith at hs
  | succ n ih =>
    intro j₁ j₂ hs hw he
    cases he with
    | null => rfl
    | bool b => rfl
    | num q => rfl
    | str s => rfl
    | arr l₁ l₂ hl =>
      have hsz : ∀ j ∈ l₁, sizeOf j ≤ n := by
        intro j hj
        have h1 : sizeOf j < sizeOf l₁ := List.sizeOf_lt_of_mem hj
        have h2 : sizeOf (JSON.arr l₁) = 1 + sizeOf l₁ := by simp
        omega
      have hwf : ∀ j ∈ l₁, WF j := by cases hw with | arr _ h => exact h
      have key : ∀ a b, JEquivList a b → (∀ j ∈ a, sizeOf j ≤ n) → (∀ j ∈ a, WF j) →
          canonList a = canonList b := by
        intro a
        induction a with
        | nil => intro b hab _ _; cases hab; rfl
        | cons ja tla iha =>
          intro b hab hsa hwa
          cases hab with
          | cons _ jb _ tlb hj htl =>
            have h1 := ih ja jb (hsa _ (List.mem_cons_self _ _)) (hwa _ (List.mem_cons_self _ _)) hj
            have h2 := iha tlb htl (fun j hj' => hsa j (List.mem_cons_of_mem _ hj'))
                           (fun j hj' => hwa j (List.mem_cons_of_mem _ hj'))
            simp [canonList, h1, h2]
      have hcl := key l₁ l₂ hl hsz hwf
      simp [canon, hcl]
    | obj l₁ l₂' l₂ hp hf =>
      have hkn : (l₁.map Prod.fst).Nodup := by cases hw with | obj _ hn _ => exact hn
      have hwv : ∀ q ∈ l₁, WF q.2 := by cases hw with | obj _ _ h => exact h
      have hsz : ∀ q ∈ l₁, sizeOf q.2 ≤ n := by
        intro q hq
        have h1 : sizeOf q < sizeOf l₁ := List.sizeOf_lt_of_mem hq
        have h2 : sizeOf (JSON.obj l₁) = 1 + sizeOf l₁ := by simp
        obtain ⟨k, v⟩ := q
        simp only [Prod.mk.sizeOf_spec] at h1
        simp only
        omega
      have hw₂' : ∀ q ∈ l₂', WF q.2 := fun q hq => hwv q (hp.symm.subset hq)
      have hs₂' : ∀ q ∈ l₂', sizeOf q.2 ≤ n := fun q hq => hsz q (hp.symm.subset hq)
      have key : ∀ a b, JEquivFields a b → (∀ q ∈ a, sizeOf q.2 ≤ n) → (∀ q ∈ a, WF q.2) →
          canonFields a = canonFields b := by
        intro a
        induction a with
        | nil => intro b hab _ _; cases hab; rfl
        | cons qa tla iha =>
          intro b hab hsa hwa
          cases hab with
          | cons k v₁ v₂ _ tlb hv htl =>
            have h1 := ih v₁ v₂ (hsa (k, v₁) (List.mem_cons_self _ _))
                         (hwa (k, v₁) (List.mem_cons_self _ _)) hv
            have h2 := iha tlb htl (fun q hq => hsa q (List.mem_cons_of_mem _ hq))
                           (fun q hq => hwa q (List.mem_cons_of_mem _ hq))
            simp [canonFields, h1, h2]
      have hcf : canonFields l₂' = canonFields l₂ := key _ _ hf hs₂' hw₂'
      have hpc : List.Perm (canonFields l₁) (canonFields l₂') := by
        rw [canonFields_eq_map, canonFields_eq_map]
        exact hp.map _
      have hknc : ((canonFields l₁).map Prod.fst).Nodup := by
        rw [canonFields_eq_map, List.map_map]
        exact hkn
      have hsort := sortFields_congr _ _ hpc hknc
      simp [canon, hsort, hcf]

/-! ## Helper lemmas: gate shape -/

theorem maybe_send_eq (st : AlertMemory) (city : String) (data : ForecastSnapshot)
    (g p r cd now : ℚ) (ok : Bool) (sig msg : String)
    (hc : compute_weather_alert city data g p r "estricto" = some (sig, msg)) :
    maybe_send_weather_alert st city data g p r cd now ok =
      if st.last_sig = some sig ∧ ¬(cd * 60 ≤ now - st.last_ts) then (st, [])
      else if ok then (⟨some sig, now⟩, [msg]) else (st, []) := by
  unfold maybe_send_weather_alert
  rw [hc]

theorem maybe_send_delivered_le_one (st : AlertMemory) (city : String)
    (data : ForecastSnapshot) (g p r cd now : ℚ) (ok : Bool) :
    (maybe_send_weather_alert st city data g p r cd now ok).2.length ≤ 1 := by
  unfold maybe_send_weather_alert
  cases compute_weather_alert city data g p r "estricto" with
  | none => simp
  | some pr' =>
    obtain ⟨sig, msg⟩ := pr'
    dsimp only
    split_ifs <;> simp

theorem compute_ne_none_of_mem (city : String) (data : ForecastSnapshot)
    (g p r : ℚ) (label x : String) (hx : x ∈ weatherReasons data g p r) :
    compute_weather_alert city data g p r label ≠ none := by
  intro hn
  rw [compute_eq_none_iff] at hn
  rw [hn] at hx
  simp at hx

/-! ## Claim theorems -/

/-- C3 (confirmed): the weather gate suppresses exactly when the
candidate's signature equals the stored one AND the cooldown has not
elapsed; a differing signature (including the fresh `none` memory)
always sends regardless of elapsed time, and an unchanged signature
sends exactly when `now - last_sent_at ≥ cooldown_minutes` (in seconds:
`cooldown_min * 60`). -/
theorem claim_C3_weather_gate (st : AlertMemory) (city : String)
    (data : ForecastSnapshot) (g p r cd now : ℚ) (sig msg : String)
    (hc : compute_weather_alert city data g p r "estricto" = some (sig, msg)) :
    ((maybe_send_weather_alert st city data g p r cd now true).2 = [] ↔
      (st.last_sig = some sig ∧ now - st.last_ts < cd * 60)) ∧
    (st.last_sig ≠ some sig →
      maybe_send_weather_alert st city data g p r cd now true = (⟨some sig, now⟩, [msg])) ∧
    (st.last_sig = none →
      maybe_send_weather_alert st city data g p r cd now true = (⟨some sig, now⟩, [msg])) ∧
    (st.last_sig = some sig →
      ((maybe_send_weather_alert st city data g p r cd now true).2 = [msg] ↔
        cd * 60 ≤ now - st.last_ts)) := by
  have H := maybe_send_eq st city data g p r cd now true sig msg hc
  refine ⟨?_, ?_, ?_, ?_⟩
  · rw [H]
    by_cases hsig : st.last_sig = some sig
    · by_cases hcd : cd * 60 ≤ now - st.last_ts
      · simp [hsig, hcd, not_lt]
      · simp [hsig, hcd, not_le.mp hcd]
    · simp [hsig]
  · intro hne
    rw [H]
    simp [hne]
  · intro hnone
    rw [H]
    simp [hnone]
  · intro hsig
    rw [H]
    by_cases hcd : cd * 60 ≤ now - st.last_ts
    · simp [hsig, hcd]
    · simp [hsig, hcd]

/-- Witness for C3 at a concrete input: a 65 km/h current gust against
the default strict thresholds, fresh memory, always sends. -/
theorem claim_C3_witness :
    compute_weather_alert "c" exSnapshot65 60 80 5 "estricto" =
      some (String.intercalate "|" (weatherReasons exSnapshot65 60 80 5) ++ "|" ++ "estricto",
        "\u26a0\ufe0f Alerta meteorol\u00f3gica (" ++ "estricto" ++ ")\n"
          ++ String.intercalate "\n" ((weatherReasons exSnapshot65 60 80 5).map (fun r => "\u2022 " ++ r))
          ++ "\n\n📍 " ++ "c" ++ "\n\u2139\ufe0f Fuente: Open-Meteo") ∧
    maybe_send_weather_alert ⟨none, 0⟩ "c" exSnapshot65 60 80 5 60 1000 true =
      (⟨some (String.intercalate "|" (weatherReasons exSnapshot65 60 80 5) ++ "|" ++ "estricto"), 1000⟩,
        ["\u26a0\ufe0f Alerta meteorol\u00f3gica (" ++ "estricto" ++ ")\n"
          ++ String.intercalate "\n" ((weatherReasons exSnapshot65 60 80 5).map (fun r => "\u2022 " ++ r))
          ++ "\n\n📍 " ++ "c" ++ "\n\u2139\ufe0f Fuente: Open-Meteo"]) := by
  have hc : compute_weather_alert "c" exSnapshot65 60 80 5 "estricto" =
      some (String.intercalate "|" (weatherReasons exSnapshot65 60 80 5) ++ "|" ++ "estricto",
        "\u26a0\ufe0f Alerta meteorol\u00f3gica (" ++ "estricto" ++ ")\n"
          ++ String.intercalate "\n" ((weatherReasons exSnapshot65 60 80 5).map (fun r => "\u2022 " ++ r))
          ++ "\n\n📍 " ++ "c" ++ "\n\u2139\ufe0f Fuente: Open-Meteo") := by
    unfold compute_weather_alert
    rw [if_neg (by decide)]
  exact ⟨hc, (claim_C3_weather_gate ⟨none, 0⟩ "c" exSnapshot65 60 80 5 60 1000 _ _ hc).2.2.1 rfl⟩

/-- C4 (confirmed): the evaluator returns none iff, over the first 6
hourly entries, no series maximum and no current gust meets or exceeds
its threshold; when it returns a candidate the reasons list is nonempty
(at most 4), every applicable reason is included independently, and the
windowed maximum skips absent entries, defaulting to 0 when all are
absent. -/
theorem claim_C4_evaluator (city : String) (data : ForecastSnapshot)
    (g p r : ℚ) (label : String) :
    (compute_weather_alert city data g p r label = none ↔
      ((∀ v, data.current_wind_gusts_10m = some v → v < g) ∧
       max_first_n data.hourly_wind_gusts_10m 6 < g ∧
       max_first_n data.hourly_precipitation_probability 6 < p ∧
       max_first_n data.hourly_precipitation 6 < r)) ∧
    (∀ sig msg, compute_weather_alert city data g p r label = some (sig, msg) →
       1 ≤ (weatherReasons data g p r).length) ∧
    (weatherReasons data g p r).length ≤ 4 ∧
    (∀ v, data.current_wind_gusts_10m = some v → g ≤ v →
       gust_now_reason v ∈ weatherReasons data g p r) ∧
    (g ≤ max_first_n data.hourly_wind_gusts_10m 6 →
       gust_max_reason (max_first_n data.hourly_wind_gusts_10m 6) ∈ weatherReasons data g p r) ∧
    (p ≤ max_first_n data.hourly_precipitation_probability 6 →
       rain_prob_reason (max_first_n data.hourly_precipitation_probability 6) ∈
         weatherReasons data g p r) ∧
    (r ≤ max_first_n data.hourly_precipitation 6 →
       rain_mm_reason (max_first_n data.hourly_precipitation 6) ∈ weatherReasons data g p r) ∧
    (∀ (l : List (Option ℚ)) (n : Nat), (∀ x ∈ l.take n, x = none) → max_first_n l n = 0) := by
  refine ⟨?_, ?_, weatherReasons_length_le data g p r,
    fun v hc h => gust_now_reason_mem data g p r v hc h,
    fun h => gust_max_reason_mem data g p r h,
    fun h => rain_prob_reason_mem data g p r h,
    fun h => rain_mm_reason_mem data g p r h,
    fun l n h => max_first_n_of_all_none l n h⟩
  · rw [compute_eq_none_iff, weatherReasons_eq_nil_iff]
  · intro sig msg hsome
    have hne : weatherReasons data g p r ≠ [] := by
      intro he
      have := (compute_eq_none_iff city data g p r label).mpr he
      rw [hsome] at this
      exact Option.some_ne_none _ this
    exact List.length_pos.mpr hne

/-- Witness for C4: the strict thresholds and a 65 km/h current gust
yield a candidate whose reasons contain the current-gust reason. -/
theorem claim_C4_witness :
    compute_weather_alert "c" exSnapshot65 60 80 5 "estricto" ≠ none ∧
    gust_now_reason 65 ∈ weatherReasons exSnapshot65 60 80 5 ∧
    max_first_n [none, none] 6 = 0 := by
  have H := claim_C4_evaluator "c" exSnapshot65 60 80 5 "estricto"
  refine ⟨?_, H.2.2.2.1 65 rfl (by norm_num), H.2.2.2.2.2.2.2 [none, none] 6 (by simp)⟩
  intro hn
  have h65 := (H.1.mp hn).1 65 rfl
  norm_num at h65

/-- C9 (confirmed): the windowed maximum is always nonnegative (it
starts at 0 and present negative entries never lower it), so a
threshold ≤ 0 makes its hourly reason fire on every evaluation, even on
empty or all-absent series. -/
theorem claim_C9_nonneg_maximum :
    (∀ (l : List (Option ℚ)) (n : Nat), 0 ≤ max_first_n l n) ∧
    (∀ (city : String) (data : ForecastSnapshot) (g p r : ℚ) (label : String),
      (g ≤ 0 →
        gust_max_reason (max_first_n data.hourly_wind_gusts_10m 6) ∈ weatherReasons data g p r ∧
        compute_weather_alert city data g p r label ≠ none) ∧
      (p ≤ 0 →
        rain_prob_reason (max_first_n data.hourly_precipitation_probability 6) ∈
          weatherReasons data g p r ∧
        compute_weather_alert city data g p r label ≠ none) ∧
      (r ≤ 0 →
        rain_mm_reason (max_first_n data.hourly_precipitation 6) ∈ weatherReasons data g p r ∧
        compute_weather_alert city data g p r label ≠ none)) := by
  refine ⟨max_first_n_nonneg, ?_⟩
  intro city data g p r label
  refine ⟨fun hg => ?_, fun hp => ?_, fun hr => ?_⟩
  · have hmem := gust_max_reason_mem data g p r (le_trans hg (max_first_n_nonneg _ _))
    exact ⟨hmem, compute_ne_none_of_mem city data g p r label _ hmem⟩
  · have hmem := rain_prob_reason_mem data g p r (le_trans hp (max_first_n_nonneg _ _))
    exact ⟨hmem, compute_ne_none_of_mem city data g p r label _ hmem⟩
  · have hmem := rain_mm_reason_mem data g p r (le_trans hr (max_first_n_nonneg _ _))
    exact ⟨hmem, compute_ne_none_of_mem city data g p r label _ hmem⟩

/-- Witness for C9: a zero gust threshold fires the windowed-gust reason
on a snapshot whose only present hourly entry is negative. -/
theorem claim_C9_witness :
    0 ≤ max_first_n [some (-3)] 5 ∧
    gust_max_reason (max_first_n exSnapshotNeg.hourly_wind_gusts_10m 6) ∈
      weatherReasons exSnapshotNeg 0 80 5 ∧
    compute_weather_alert "c" exSnapshotNeg 0 80 5 "estricto" ≠ none := by
  have H := claim_C9_nonneg_maximum
  have H2 := (H.2 "c" exSnapshotNeg 0 80 5 "estricto").1 le_rfl
  exact ⟨H.1 [some (-3)] 5, H2.1, H2.2⟩

/-- C7 (confirmed): a candidate's signature is the reason strings joined
by `"|"` suffixed with `"|" ++ label`, and since the strict and
sensitive labels (`"estricto"`, `"sensible"`) have equal length but
differ, a strict and a sensitive evaluation of the same snapshot can
never produce the same signature. -/
theorem claim_C7_signature_structure (city : String) (data : ForecastSnapshot) :
    (∀ (g p r : ℚ) (label sig msg : String),
      compute_weather_alert city data g p r label = some (sig, msg) →
      sig = String.intercalate "|" (weatherReasons data g p r) ++ "|" ++ label) ∧
    (∀ (g₁ p₁ r₁ g₂ p₂ r₂ : ℚ) (sig₁ msg₁ sig₂ msg₂ : String),
      compute_weather_alert city data g₁ p₁ r₁ "estricto" = some (sig₁, msg₁) →
      compute_weather_alert city data g₂ p₂ r₂ "sensible" = some (sig₂, msg₂) →
      sig₁ ≠ sig₂) := by
  constructor
  · intro g p r label sig msg hsome
    exact compute_eq_some city data g p r label sig msg hsome
  · intro g₁ p₁ r₁ g₂ p₂ r₂ sig₁ msg₁ sig₂ msg₂ h₁ h₂
    rw [compute_eq_some city data g₁ p₁ r₁ "estricto" sig₁ msg₁ h₁,
        compute_eq_some city data g₂ p₂ r₂ "sensible" sig₂ msg₂ h₂]
    exact append_ne_of_suffix_ne _ _ "estricto" "sensible" (by decide) (by decide)

/-- Witness for C7: the same 65 km/h gust snapshot evaluated in strict
and in sensitive mode produces two distinct signatures. -/
theorem claim_C7_witness :
    compute_weather_alert "c" exSnapshot65 60 80 5 "estricto" =
      some (String.intercalate "|" (weatherReasons exSnapshot65 60 80 5) ++ "|" ++ "estricto",
        "⚠️ Alerta meteorológica (" ++ "estricto" ++ ")\n"
          ++ String.intercalate "\n" ((weatherReasons exSnapshot65 60 80 5).map (fun r => "• " ++ r))
          ++ "\n\n📍 " ++ "c" ++ "\nℹ️ Fuente: Open-Meteo") ∧
    compute_weather_alert "c" exSnapshot65 45 60 2 "sensible" =
      some (String.intercalate "|" (weatherReasons exSnapshot65 45 60 2) ++ "|" ++ "sensible",
        "⚠️ Alerta meteorológica (" ++ "sensible" ++ ")\n"
          ++ String.intercalate "\n" ((weatherReasons exSnapshot65 45 60 2).map (fun r => "• " ++ r))
          ++ "\n\n📍 " ++ "c" ++ "\nℹ️ Fuente: Open-Meteo") ∧
    String.intercalate "|" (weatherReasons exSnapshot65 60 80 5) ++ "|" ++ "estricto" ≠
      String.intercalate "|" (weatherReasons exSnapshot65 45 60 2) ++ "|" ++ "sensible" := by
  have h₁ : compute_weather_alert "c" exSnapshot65 60 80 5 "estricto" =
      some (String.intercalate "|" (weatherReasons exSnapshot65 60 80 5) ++ "|" ++ "estricto",
        "⚠️ Alerta meteorológica (" ++ "estricto" ++ ")\n"
          ++ String.intercalate "\n" ((weatherReasons exSnapshot65 60 80 5).map (fun r => "• " ++ r))
          ++ "\n\n📍 " ++ "c" ++ "\nℹ️ Fuente: Open-Meteo") := by
    unfold compute_weather_alert
    rw [if_neg (by decide)]
  have h₂ : compute_weather_alert "c" exSnapshot65 45 60 2 "sensible" =
      some (String.intercalate "|" (weatherReasons exSnapshot65 45 60 2) ++ "|" ++ "sensible",
        "⚠️ Alerta meteorológica (" ++ "sensible" ++ ")\n"
          ++ String.intercalate "\n" ((weatherReasons exSnapshot65 45 60 2).map (fun r => "• " ++ r))
          ++ "\n\n📍 " ++ "c" ++ "\nℹ️ Fuente: Open-Meteo") := by
    unfold compute_weather_alert
    rw [if_neg (by decide)]
  exact ⟨h₁, h₂, (claim_C7_signature_structure "c" exSnapshot65).2 60 80 5 45 60 2 _ _ _ _ h₁ h₂⟩

/-- C1 (corrected): the air-quality gate is conjunctive, not the
disjunctive weather rule — it notifies iff the signature changed AND the
cooldown elapsed; on that condition both memory fields are updated,
otherwise nothing changes. -/
theorem claim_C1_air_gate (h : String → ℤ) (st : AlertMemory) (data : JSON)
    (cd now : ℚ) :
    ((air_check h st data cd now true).2 ≠ [] ↔
      (some (air_signature h data) ≠ st.last_sig ∧ cd * 60 ≤ now - st.last_ts)) ∧
    (some (air_signature h data) ≠ st.last_sig → cd * 60 ≤ now - st.last_ts →
      air_check h st data cd now true =
        (⟨some (air_signature h data), now⟩,
         [summarize_air_quality data ++ "\nℹ️ Fuente: AIR_QUALITY_URL"])) ∧
    (some (air_signature h data) = st.last_sig ∨ now - st.last_ts < cd * 60 →
      air_check h st data cd now true = (st, [])) := by
  unfold air_check
  by_cases h₁ : some (air_signature h data) ≠ st.last_sig
  · by_cases h₂ : cd * 60 ≤ now - st.last_ts
    · simp [h₁, h₂, not_lt.mpr h₂]
    · simp [h₁, h₂, not_le.mp h₂]
  · simp [h₁, not_lt]

/-- Counterexample to C1 as stated: a payload whose signature differs
from the stored one is NOT notified when the cooldown has not elapsed
(the claimed disjunctive weather rule would send here). -/
theorem claim_C1_cex :
    some (air_signature hZero exPayload42) ≠ (AlertMemory.mk (some "seen") 0).last_sig ∧
    (air_check hZero ⟨some "seen", 0⟩ exPayload42 60 0 true).2 = [] := by
  refine ⟨by decide, ?_⟩
  unfold air_check
  rw [if_neg (by rintro ⟨-, habs⟩; norm_num at habs)]

/-- Witness for the amended C1: a changed signature with an elapsed
cooldown notifies and rewrites both memory fields. -/
theorem claim_C1_witness :
    some (air_signature hZero exPayload42) ≠ (AlertMemory.mk none 0).last_sig ∧
    air_check hZero ⟨none, 0⟩ exPayload42 60 3600 true =
      (⟨some (air_signature hZero exPayload42), 3600⟩,
       [summarize_air_quality exPayload42 ++ "\nℹ️ Fuente: AIR_QUALITY_URL"]) := by
  have H := claim_C1_air_gate hZero ⟨none, 0⟩ exPayload42 60 3600
  exact ⟨by simp, H.2.1 (by simp) (by norm_num)⟩

/-- C2 (corrected): only the weather slot is untouched when the notifier
fails; the air-quality and AEMET slots (and the rail slots) are written
BEFORE the send, so a failed send still commits the new signature/id. -/
theorem claim_C2_memory_on_failure :
    (∀ (st : AlertMemory) (city : String) (data : ForecastSnapshot) (g p r cd now : ℚ),
      maybe_send_weather_alert st city data g p r cd now false = (st, [])) ∧
    (∀ (h : String → ℤ) (st : AlertMemory) (data : JSON) (cd now : ℚ),
      some (air_signature h data) ≠ st.last_sig → cd * 60 ≤ now - st.last_ts →
      air_check h st data cd now false = (⟨some (air_signature h data), now⟩, [])) ∧
    (∀ (last : Option String) (it : FeedItem) (rest : List FeedItem),
      some it.id ≠ last → check_aemet last (it :: rest) false = (some it.id, [])) ∧
    (∀ (line : String) (last : Option String) (it : FeedItem) (rest : List FeedItem),
      some it.id ≠ last → rail_check line last (it :: rest) false = (some it.id, [])) := by
  refine ⟨?_, ?_, ?_, ?_⟩
  · intro st city data g p r cd now
    unfold maybe_send_weather_alert
    cases compute_weather_alert city data g p r "estricto" with
    | none => rfl
    | some pr' =>
      obtain ⟨sig, msg⟩ := pr'
      simp only [Bool.false_eq_true, if_false, ite_self]
  · intro h st data cd now h₁ h₂
    unfold air_check
    simp [h₁, h₂]
  · intro last it rest hne
    unfold check_aemet
    simp [hne]
  · intro line last it rest hne
    unfold rail_check
    simp [hne]

/-- Counterexample to C2 as stated: a failed AEMET notify still advances
the stored feed id (memory is mutated before the send). -/
theorem claim_C2_cex :
    (check_aemet none [exAemetItem] false).1 = some "g1" ∧
    (check_aemet none [exAemetItem] false).2 = [] := by
  constructor
  · decide
  · decide

/-- Witness for the amended C2 at concrete inputs for all four sources. -/
theorem claim_C2_witness :
    maybe_send_weather_alert ⟨some "s", 3⟩ "c" exSnapshot65 60 80 5 60 100 false =
      (⟨some "s", 3⟩, []) ∧
    check_aemet none [exAemetItem] false = (some "g1", []) ∧
    rail_check "R1" none [exRailSerious] false = (some "g3", []) ∧
    air_check hZero ⟨none, 0⟩ exPayload42 60 3600 false =
      (⟨some (air_signature hZero exPayload42), 3600⟩, []) := by
  have H := claim_C2_memory_on_failure
  exact ⟨H.1 ⟨some "s", 3⟩ "c" exSnapshot65 60 80 5 60 100,
    H.2.2.1 none exAemetItem [] (by decide),
    H.2.2.2 "R1" none exRailSerious [] (by decide),
    H.2.1 hZero ⟨none, 0⟩ exPayload42 60 3600 (by simp) (by norm_num)⟩

/-- C5 (corrected): the strict on-demand command is literally the
automatic strict path over the same memory slot, and that shared path
sends at most one notification per cooldown window; the sensitive
command, however, bypasses gate and memory entirely and sends on every
invocation with an active condition. -/
theorem claim_C5_manual_checks (st : AlertMemory) (city : String)
    (data : ForecastSnapshot) (g p r cd now now' : ℚ)
    (hlt : now' - now < cd * 60) :
    (∀ ok, cmd_alertas_tiempo st city data g p r cd now ok =
      maybe_send_weather_alert st city data g p r cd now ok) ∧
    ((cmd_alertas_tiempo st city data g p r cd now true).2 ++
      (maybe_send_weather_alert (cmd_alertas_tiempo st city data g p r cd now true).1
        city data g p r cd now' true).2).length ≤ 1 ∧
    (∀ sig msg, compute_weather_alert city data 45 60 2 "sensible" = some (sig, msg) →
      cmd_alertas_sensible city data true = [msg]) := by
  refine ⟨fun _ => rfl, ?_, ?_⟩
  · show ((maybe_send_weather_alert st city data g p r cd now true).2 ++
      (maybe_send_weather_alert (maybe_send_weather_alert st city data g p r cd now true).1
        city data g p r cd now' true).2).length ≤ 1
    cases hc : compute_weather_alert city data g p r "estricto" with
    | none =>
      have h1 : ∀ (s : AlertMemory) (t : ℚ),
          maybe_send_weather_alert s city data g p r cd t true = (s, []) := by
        intro s t
        unfold maybe_send_weather_alert
        rw [hc]
      rw [h1, h1]
      simp
    | some pr' =>
      obtain ⟨sig, msg⟩ := pr'
      have H1 := maybe_send_eq st city data g p r cd now true sig msg hc
      by_cases hgate : st.last_sig = some sig ∧ ¬(cd * 60 ≤ now - st.last_ts)
      · rw [H1, if_pos hgate]
        have hle := maybe_send_delivered_le_one st city data g p r cd now' true
        simpa using hle
      · rw [H1, if_neg hgate]
        have H2 := maybe_send_eq ⟨some sig, now⟩ city data g p r cd now' true sig msg hc
        rw [if_pos rfl]
        rw [H2, if_pos ⟨rfl, not_le.mpr (by simpa using hlt)⟩]
        simp
  · intro sig msg hsome
    unfold cmd_alertas_sensible
    rw [hsome]
    rfl

/-- Counterexample to C5 as stated: two immediate invocations of the
sensitive on-demand check both send for the same still-active
condition — more than one notification within any positive cooldown
window, which the shared gate would forbid. -/
theorem claim_C5_cex :
    (cmd_alertas_sensible "c" exSnapshot50 true ++
      cmd_alertas_sensible "c" exSnapshot50 true).length = 2 := by decide

/-- Witness for the amended C5: the strict command plus an automatic
tick one second later deliver at most one notification, and the
sensitive command resends unconditionally. -/
theorem claim_C5_witness :
    ((cmd_alertas_tiempo ⟨none, 0⟩ "c" exSnapshot65 60 80 5 60 1000 true).2 ++
      (maybe_send_weather_alert
        (cmd_alertas_tiempo ⟨none, 0⟩ "c" exSnapshot65 60 80 5 60 1000 true).1
        "c" exSnapshot65 60 80 5 60 1001 true).2).length ≤ 1 ∧
    cmd_alertas_sensible "c" exSnapshot65 true =
      ["⚠️ Alerta meteorológica (" ++ "sensible" ++ ")\n"
        ++ String.intercalate "\n" ((weatherReasons exSnapshot65 45 60 2).map (fun r => "• " ++ r))
        ++ "\n\n📍 " ++ "c" ++ "\nℹ️ Fuente: Open-Meteo"] := by
  have H := claim_C5_manual_checks ⟨none, 0⟩ "c" exSnapshot65 60 80 5 60 1000 1001 (by norm_num)
  refine ⟨H.2.1,
    H.2.2 (String.intercalate "|" (weatherReasons exSnapshot65 45 60 2) ++ "|" ++ "sensible") _ ?_⟩
  unfold compute_weather_alert
  rw [if_neg (by decide)]

/-- C6 (confirmed): a rail poll observing a fresh item id always
advances the stored id, independent of the classifier, and forwards a
notification exactly for serious titles; the AEMET detector notifies
every fresh id with no classifier; an unchanged id or an empty fetch
changes nothing and sends nothing. -/
theorem claim_C6_feed_detectors :
    (∀ (line : String) (last : Option String) (it : FeedItem) (rest : List FeedItem),
      some it.id ≠ last →
      (rail_check line last (it :: rest) true).1 = some it.id ∧
      ((rail_check line last (it :: rest) true).2 ≠ [] ↔ looks_serious_train it.title = true)) ∧
    (∀ (line : String) (last : Option String) (it : FeedItem) (rest : List FeedItem),
      some it.id = last → rail_check line last (it :: rest) true = (last, [])) ∧
    (∀ (line : String) (last : Option String), rail_check line last [] true = (last, [])) ∧
    (∀ (last : Option String) (it : FeedItem) (rest : List FeedItem),
      some it.id ≠ last → check_aemet last (it :: rest) true = (some it.id, [aemet_message it])) ∧
    (∀ (last : Option String) (it : FeedItem) (rest : List FeedItem),
      some it.id = last → check_aemet last (it :: rest) true = (last, [])) ∧
    (∀ last : Option String, check_aemet last [] true = (last, [])) := by
  refine ⟨?_, ?_, ?_, ?_, ?_, ?_⟩
  · intro line last it rest hne
    unfold rail_check
    dsimp only
    rw [if_neg hne]
    cases hst : looks_serious_train it.title <;> simp [hst]
  · intro line last it rest heq
    unfold rail_check
    dsimp only
    rw [if_pos heq]
  · intro line last
    rfl
  · intro last it rest hne
    unfold check_aemet
    dsimp only
    rw [if_neg hne]
    rfl
  · intro last it rest heq
    unfold check_aemet
    dsimp only
    rw [if_pos heq]
  · intro last
    rfl

/-- Witness for C6: scenario 4 of the spec — a fresh but non-serious
rail item advances the id and sends nothing; a serious one sends; a
fresh AEMET item always sends. -/
theorem claim_C6_witness :
    (rail_check "R1" (some "g1") [exRailNew] true).1 = some "g2" ∧
    ((rail_check "R1" (some "g1") [exRailNew] true).2 ≠ [] ↔
      looks_serious_train exRailNew.title = true) ∧
    looks_serious_train exRailNew.title = false ∧
    ((rail_check "R1" (some "g1") [exRailSerious] true).2 ≠ [] ↔
      looks_serious_train exRailSerious.title = true) ∧
    looks_serious_train exRailSerious.title = true ∧
    check_aemet (some "g0") [exAemetItem] true = (some "g1", [aemet_message exAemetItem]) := by
  have H := claim_C6_feed_detectors
  have h1 := H.1 "R1" (some "g1") exRailNew [] (by decide)
  have h2 := H.1 "R1" (some "g1") exRailSerious [] (by decide)
  exact ⟨h1.1, h1.2, by decide, h2.2, by decide,
    H.2.2.2.1 (some "g0") exAemetItem [] (by decide)⟩

/-- C10 (confirmed): the classifier lowercases the title and tests raw
substring containment against the fixed keyword list, so any title
containing a case-variant of "servicio" or "servei" is serious (whether
or not it describes an incident), while the empty title never is. -/
theorem claim_C10_classifier :
    (∀ (title : String) (u w v : List Char),
      title.data = u ++ (w ++ v) →
      (w.map Char.toLower = "servicio".data ∨ w.map Char.toLower = "servei".data) →
      looks_serious_train title = true) ∧
    looks_serious_train "" = false := by
  constructor
  · intro title u w v hdecomp hw
    unfold looks_serious_train
    rw [List.any_eq_true]
    have hlow : (pyLower title).data =
        u.map Char.toLower ++ (w.map Char.toLower ++ v.map Char.toLower) := by
      have : (pyLower title).data = title.data.map Char.toLower := rfl
      rw [this, hdecomp]
      simp
    cases hw with
    | inl hser =>
      refine ⟨"servicio", by decide, ?_⟩
      rw [hser] at hlow
      rw [hlow]
      exact subOcc_append _ _ _
    | inr hser =>
      refine ⟨"servei", by decide, ?_⟩
      rw [hser] at hlow
      rw [hlow]
      exact subOcc_append _ _ _
  · decide

/-- Witness for C10: an upper-case "SERVICIO" in a routine (non-incident)
title still classifies as serious; the decomposition facts are checked
concretely. -/
theorem claim_C10_witness :
    "Tren: SERVICIO normal".data =
      "Tren: ".data ++ ("SERVICIO".data ++ " normal".data) ∧
    "SERVICIO".data.map Char.toLower = "servicio".data ∧
    looks_serious_train "Tren: SERVICIO normal" = true := by
  refine ⟨by decide, by decide, ?_⟩
  exact claim_C10_classifier.1 "Tren: SERVICIO normal" "Tren: ".data "SERVICIO".data
    " normal".data (by decide) (Or.inl (by decide))

/-- C8 (confirmed): the air-quality signature is computed from a
key-sorted serialization, so it is deterministic and invariant under
reordering of object keys at any depth: structurally equal decoded
payloads (equal up to object key order, with the `dict`-guaranteed
distinct keys) always hash to the same signature string. -/
theorem claim_C8_air_signature (h : String → ℤ) (j₁ j₂ : JSON)
    (hw : WF j₁) (he : JEquiv j₁ j₂) :
    air_signature h j₁ = air_signature h j₂ := by
  unfold air_signature dumps_sorted
  rw [canon_congr (sizeOf j₁) j₁ j₂ le_rfl hw he]

/-- Witness for C8: the object `{"aqi": 42, "src": "x"}` written with
its two keys in either order gets the same signature. -/
theorem claim_C8_witness :
    WF exJ1 ∧ JEquiv exJ1 exJ2 ∧
    air_signature hZero exJ1 = air_signature hZero exJ2 := by
  have hw : WF exJ1 := by
    refine WF.obj _ (by decide) ?_
    intro q hq
    rcases List.mem_cons.mp hq with rfl | hq2
    · exact WF.num 42
    · rcases List.mem_cons.mp hq2 with rfl | hq3
      · exact WF.str "x"
      · exact absurd hq3 (List.not_mem_nil _)
  have he : JEquiv exJ1 exJ2 := by
    show JEquiv (.obj [("aqi", .num 42), ("src", .str "x")])
      (.obj [("src", .str "x"), ("aqi", .num 42)])
    refine JEquiv.obj _ _ _ (List.Perm.swap ("src", JSON.str "x") ("aqi", JSON.num 42) []) ?_
    exact JEquivFields.cons _ _ _ _ _ (JEquiv.str "x")
      (JEquivFields.cons _ _ _ _ _ (JEquiv.num 42) JEquivFields.nil)
  exact ⟨hw, he, claim_C8_air_signature hZero exJ1 exJ2 hw he⟩
